import Mathlib

/-!
Verification of the credential-leak detection EdgeWorker
(ew-nomoreleaks-master-harperdb).

The development shallowly embeds the TypeScript sources:
- src/utils.ts               : hasNestedProperty, getNestedValue, isValidBody
- src/constants.ts           : UNAME, PASSWD, NO_MORE_LEAKS_HEADER
- src/unnamed/part_000       : responseProvider, keyExists, originRequest,
                               mapCredentials, removeUnsafeHeaders
External collaborators (the HTTP transport, the WebCrypto digest, the
URLSearchParams library and the runtime Unicode primitives) are embedded as
oracle parameters or, where their action on the inputs considered here is
the identity, as the identity function; each such spot is documented at its
definition.

JavaScript values reachable from a JSON body are modelled by the inductive
type JSValue below; thrown JavaScript exceptions are modelled by
Except String.
-/

/-- A JavaScript value as it can appear while the EdgeWorker manipulates a
parsed JSON (or form-mapped) body: undefined, null, booleans, numbers,
strings, arrays and plain objects.  Objects are association lists with the
first occurrence of a key authoritative; JSON.parse never produces duplicate
keys, so this agrees with the runtime on every value the worker sees.
Numeric JSON values are modelled as integers (no claim in this development
touches fractional numbers). -/
inductive JSValue where
  | undefined : JSValue
  | null : JSValue
  | bool (b : Bool) : JSValue
  | num (n : Int) : JSValue
  | str (s : String) : JSValue
  | arr (elems : List JSValue) : JSValue
  | obj (fields : List (String × JSValue)) : JSValue
deriving Repr, Inhabited

/-- JavaScript truthiness of a value (ToBoolean).  NaN does not arise here
because numbers are modelled as integers. -/
def jsTruthy : JSValue → Bool
  | .undefined => false
  | .null => false
  | .bool b => b
  | .num n => n != 0
  | .str s => s != ""
  | .arr _ => true
  | .obj _ => true

/-- Whether the JavaScript expression typeof v === "object" is true: the
case for null, arrays and plain objects. -/
def jsTypeofIsObject : JSValue → Bool
  | .null => true
  | .arr _ => true
  | .obj _ => true
  | _ => false

/-- Array.isArray. -/
def jsIsArray : JSValue → Bool
  | .arr _ => true
  | _ => false

/-- Strict equality with undefined (v === undefined). -/
def jsIsUndefined : JSValue → Bool
  | .undefined => true
  | _ => false

/-- Strict equality with null (v === null). -/
def jsStrictEqNull : JSValue → Bool
  | .null => true
  | _ => false

/-- The length of a string in UTF-16 code units, which is what the
JavaScript String length property counts: astral code points weigh two. -/
def utf16Length (s : String) : Nat :=
  s.data.foldl (fun n c => n + (if c.val.toNat ≥ 0x10000 then 2 else 1)) 0

/-- Whether every character of the list is a decimal digit. -/
def isDigitList : List Char → Bool
  | [] => true
  | c :: cs => c.isDigit && isDigitList cs

/-- The value of a decimal digit list under a left accumulator. -/
def digitsValAux (acc : Nat) : List Char → Nat
  | [] => acc
  | c :: cs => digitsValAux (acc * 10 + (c.toNat - 48)) cs

/-- A canonical array-index string: a single digit, or digits with no
leading zero (the only property keys under which JavaScript arrays hold
elements). -/
def isCanonicalIndex : List Char → Bool
  | [] => false
  | [c] => c.isDigit
  | c :: cs => c.isDigit && c != '0' && isDigitList cs

/-- The array index denoted by a key, when the key is a canonical index
string. -/
def jsIndexOf? (k : String) : Option Nat :=
  if isCanonicalIndex k.data then some (digitsValAux 0 k.data) else none

/-- Whether the character list s begins with the character list p. -/
def listIsStart : List Char → List Char → Bool
  | _, [] => true
  | [], _ :: _ => false
  | c :: cs, p :: ps => c == p && listIsStart cs ps

/-- String.prototype.startsWith. -/
def strStartsWith (s p : String) : Bool :=
  listIsStart s.data p.data

/-- Split a character list on a separator, keeping empty groups, as
String.prototype.split does. -/
def splitChars (sep : Char) : List Char → List (List Char)
  | [] => [[]]
  | c :: cs =>
      if c == sep then [] :: splitChars sep cs
      else
        match splitChars sep cs with
        | [] => [[c]]
        | g :: gs => (c :: g) :: gs

/-- The call path.split(".") of utils.ts: the empty path yields one empty
key, exactly as in JavaScript. -/
def jsSplitDot (s : String) : List String :=
  (splitChars '.' s.data).map String.mk

/-- Property read v[k] on a receiver that is not null or undefined (those
receivers throw; callers model the throwing read with jsGetPropE).  Plain
objects look the key up in their own fields; arrays expose canonical
numeric indices and length; strings expose length (their numeric indices
are not read anywhere in the sources).  Boxed numbers and booleans have no
own data properties.  Properties inherited from the standard prototypes
(always functions, hence never undefined and never objects) are not
modelled; no path walked by the sources meets one. -/
def jsGetProp : JSValue → String → JSValue
  | .obj fields, k => ((fields.find? (fun kv => kv.1 == k)).map (fun kv => kv.2)).getD .undefined
  | .arr elems, k =>
      if k == "length" then .num (Int.ofNat elems.length)
      else match jsIndexOf? k with
        | some i => if i < elems.length then elems.getD i .undefined else .undefined
        | none => .undefined
  | .str s, k => if k == "length" then .num (Int.ofNat (utf16Length s)) else .undefined
  | _, _ => .undefined

/-- Property read v[k] with JavaScript exception behaviour: a TypeError is
thrown when the receiver is null or undefined. -/
def jsGetPropE (v : JSValue) (k : String) : Except String JSValue :=
  match v with
  | .null => .error "TypeError"
  | .undefined => .error "TypeError"
  | _ => .ok (jsGetProp v k)

/-- The JavaScript test (k in v) on a receiver known to be a truthy object
or array: own keys of plain objects, canonical indices and length of
arrays. -/
def jsHasKey : JSValue → String → Bool
  | .obj fields, k => (fields.find? (fun kv => kv.1 == k)).isSome
  | .arr elems, k =>
      k == "length" ||
        (match jsIndexOf? k with
         | some i => i < elems.length
         | none => false)
  | _, _ => false

/-- The call v.hasOwnProperty(k), throwing a TypeError on null and
undefined receivers and boxing primitives (which own no such key for the
keys read by the sources, apart from string and array length/indices). -/
def jsHasOwnE (v : JSValue) (k : String) : Except String Bool :=
  match v with
  | .null => .error "TypeError"
  | .undefined => .error "TypeError"
  | .obj fields => .ok ((fields.find? (fun kv => kv.1 == k)).isSome)
  | .arr elems => .ok (k == "length" ||
      (match jsIndexOf? k with
       | some i => i < elems.length
       | none => false))
  | .str s => .ok (k == "length" ||
      (match jsIndexOf? k with
       | some i => i < utf16Length s
       | none => false))
  | _ => .ok false

/-- Strict equality v === n against a number literal. -/
def jsStrictEqNum (v : JSValue) (n : Int) : Bool :=
  match v with
  | .num m => m == n
  | _ => false

/-- ToNumber coercion used by the relational operator.  Integer-shaped
strings coerce to their value and the empty string to 0; other strings,
non-empty arrays and objects are modelled as NaN (none).  No theorem below
depends on the coercion of a fractional or exponent-shaped literal. -/
def jsToNumber : JSValue → Option Int
  | .undefined => none
  | .null => some 0
  | .bool b => some (if b then 1 else 0)
  | .num n => some n
  | .str s =>
      (match s.data with
       | [] => some 0
       | '-' :: rest =>
           if rest != [] && isDigitList rest then some (-(digitsValAux 0 rest : Int)) else none
       | l => if isDigitList l then some (Int.ofNat (digitsValAux 0 l)) else none)
  | .arr [] => some 0
  | .arr _ => none
  | .obj _ => none

/-- The JavaScript comparison v > n (false whenever a side is NaN). -/
def jsGtNum (v : JSValue) (n : Int) : Bool :=
  match jsToNumber v with
  | some m => m > n
  | none => false

/-- String.prototype.toLowerCase.  Lean Char.toLower performs the ASCII
simple mapping, which agrees with the runtime on every string any theorem
below lowercases. -/
def jsToLowerCase (s : String) : String :=
  String.mk (s.data.map Char.toLower)

/-- String(true) and String(false). -/
def jsStringOfBool (b : Bool) : String :=
  if b then "true" else "false"

/-- Truthiness of a nullable string variable (null is falsy, and so is the
empty string). -/
def jsTruthyOptStr : Option String → Bool
  | some s => s != ""
  | none => false

/- ===== src/constants.ts ===== -/

/-- constants.ts: the field path of the username inside the parsed body. -/
def UNAME : String := "username"

/-- constants.ts: the field path of the password inside the parsed body. -/
def PASSWD : String := "password"

/-- constants.ts: the detection header forwarded to the origin. -/
def NO_MORE_LEAKS_HEADER : String := "x-nomoreleaks"

/- ===== src/utils.ts ===== -/

/-- One step of the reduce inside hasNestedProperty (utils.ts): descend
when the accumulator is a truthy object or array containing the key,
otherwise collapse to undefined. -/
def hasStep (acc : JSValue) (key : String) : JSValue :=
  if jsTruthy acc && (jsTypeofIsObject acc || jsIsArray acc) && jsHasKey acc key then
    jsGetProp acc key
  else .undefined

/-- One step of the reduce inside getNestedValue (utils.ts): descend when
the accumulator is a truthy object or array (a missing key reads as
undefined), otherwise collapse to undefined. -/
def getStep (acc : JSValue) (key : String) : JSValue :=
  if jsTruthy acc && (jsTypeofIsObject acc || jsIsArray acc) then
    jsGetProp acc key
  else .undefined

/-- utils.ts hasNestedProperty: split the dotted path, walk the body, and
test the final accumulator against undefined. -/
def hasNestedProperty (obj : JSValue) (path : String) : Bool :=
  !jsIsUndefined ((jsSplitDot path).foldl hasStep obj)

/-- utils.ts getNestedValue: split the dotted path and walk the body. -/
def getNestedValue (obj : JSValue) (path : String) : JSValue :=
  (jsSplitDot path).foldl getStep obj

/-- utils.ts isValidBody, with JavaScript exception behaviour made
explicit: the two length reads happen on whatever value the configured
paths resolve to, and throw a TypeError when that value is null (the
short-circuit of the source conjunction is preserved). -/
def isValidBody (body : JSValue) : Except String Bool :=
  let hasBody := !jsStrictEqNull body && jsTypeofIsObject body
  let hasCredentials := hasBody && hasNestedProperty body UNAME && hasNestedProperty body PASSWD
  if hasCredentials then
    match jsGetPropE (getNestedValue body UNAME) "length" with
    | .error e => .error e
    | .ok ulen =>
      if jsGtNum ulen 1 then
        match jsGetPropE (getNestedValue body PASSWD) "length" with
        | .error e => .error e
        | .ok plen => .ok (jsGtNum plen 2)
      else .ok false
  else .ok false

/- ===== JSON serialization (JSON.stringify, runtime primitive) ===== -/

/-- Two lowercase hex digits of a byte, as toString(16) with padStart
renders it. -/
def hexTwo (n : Nat) : String :=
  let digit := fun (d : Nat) => String.singleton (Nat.digitChar d)
  digit ((n / 16) % 16) ++ digit (n % 16)

/-- The escape of one character inside a JSON.stringify string literal. -/
def jsonEscapeChar (c : Char) : String :=
  if c = '"' then "\\\""
  else if c = '\\' then "\\\\"
  else if c = '\x08' then "\\b"
  else if c = '\x09' then "\\t"
  else if c = '\x0a' then "\\n"
  else if c = '\x0c' then "\\f"
  else if c = '\x0d' then "\\r"
  else if c.val.toNat < 32 then "\\u00" ++ hexTwo c.val.toNat
  else String.singleton c

/-- The body of a JSON string literal. -/
def jsonEscape (s : String) : String :=
  s.data.foldl (fun acc c => acc ++ jsonEscapeChar c) ""

/-- Comma-joined list of fragments. -/
def joinComma : List String → String
  | [] => ""
  | [x] => x
  | x :: xs => x ++ "," ++ joinComma xs

mutual
/-- JSON.stringify on a JavaScript value: undefined serializes to no output
(none), array holes render as null, and object fields with undefined values
are dropped. -/
def stringifyV : JSValue → Option String
  | .undefined => none
  | .null => some "null"
  | .bool b => some (jsStringOfBool b)
  | .num n => some (toString n)
  | .str s => some ("\"" ++ jsonEscape s ++ "\"")
  | .arr elems => some ("[" ++ joinComma (stringifyArr elems) ++ "]")
  | .obj fields => some ("\x7b" ++ joinComma (stringifyObj fields) ++ "\x7d")

/-- Array elements under JSON.stringify. -/
def stringifyArr : List JSValue → List String
  | [] => []
  | v :: vs => (stringifyV v).getD "null" :: stringifyArr vs

/-- Object fields under JSON.stringify. -/
def stringifyObj : List (String × JSValue) → List String
  | [] => []
  | (k, v) :: fs =>
      match stringifyV v with
      | some sv => ("\"" ++ jsonEscape k ++ "\":" ++ sv) :: stringifyObj fs
      | none => stringifyObj fs
end

/-- JSON.stringify as the sources use it on a body value (never undefined
there, so the total wrapper is only exercised on the some branch). -/
def jsonStringifyTop (v : JSValue) : String :=
  (stringifyV v).getD "undefined"

/- ===== Credential normalization (part_000 lines 86-88) ===== -/

/-- The runtime primitive String.prototype.normalize("NFC"), Unicode
canonical composition.  It is not part of this repository; on strings of
ASCII characters (which have no canonical decompositions) NFC is the
identity, and every string any theorem below normalizes is ASCII, so the
primitive is embedded as the identity function. -/
def normalizeNFC (s : String) : String := s

/-- part_000 lines 86-88: the fingerprint input
getNestedValue(body, UNAME).toLowerCase().normalize("NFC") +
getNestedValue(body, PASSWD).normalize("NFC"), as a function of the two
resolved string values. -/
def normalizedUnamePasswd (uname passwd : String) : String :=
  normalizeNFC (jsToLowerCase uname) ++ normalizeNFC passwd

/- ===== mapCredentials (part_000 lines 260-265) ===== -/

/-- URLSearchParams.get: the value of the first parameter with the given
name, or null. -/
def paramsGet (params : List (String × String)) (k : String) : Option String :=
  (params.find? (fun kv => kv.1 == k)).map (fun kv => kv.2)

/-- The JavaScript expression x || "" on a nullable string. -/
def jsOrEmpty : Option String → String
  | some s => if s == "" then "" else s
  | none => ""

/-- part_000 mapCredentials: build the two-field body from the parsed
form parameters. -/
def mapCredentials (params : List (String × String)) : List (String × String) :=
  [(UNAME, jsOrEmpty (paramsGet params UNAME)),
   (PASSWD, jsOrEmpty (paramsGet params PASSWD))]

/- ===== removeUnsafeHeaders (part_000 lines 267-298) ===== -/

/-- A JavaScript headers object: association list with unique keys kept in
insertion order, each holding the list of values of that header. -/
abbrev Headers := List (String × List String)

/-- part_000 HEADERS_TO_REMOVE. -/
def HEADERS_TO_REMOVE : List String :=
  ["host", "content-length", "transfer-encoding", "connection", "vary",
   "accept-encoding", "content-encoding", "keep-alive", "proxy-authenticate",
   "proxy-authorization", "te", "trailers", "upgrade"]

/-- The JavaScript statement delete headers[k]: the entry whose key is
exactly k (case-sensitively) is dropped. -/
def jsDeleteKey (h : Headers) (k : String) : Headers :=
  h.filter (fun kv => kv.1 != k)

/-- part_000 removeUnsafeHeaders: delete the lowercased form of every
blocked name.  The null/typeof guard of the source is vacuous here because
the Headers embedding is always an object. -/
def removeUnsafeHeaders (h : Headers) : Headers :=
  HEADERS_TO_REMOVE.foldl (fun acc name => jsDeleteKey acc (jsToLowerCase name)) h

/-- The JavaScript assignment h[k] = v on a headers object: overwrite in
place if the key exists, append otherwise. -/
def jsSetHeader (h : Headers) (k : String) (v : List String) : Headers :=
  if h.any (fun kv => kv.1 == k) then
    h.map (fun kv => if kv.1 == k then (k, v) else kv)
  else h ++ [(k, v)]

/-- Whether some key of the header set equals a blocked name
case-insensitively (the property the stripped-header invariant denies). -/
def containsUnsafeCI (h : Headers) : Bool :=
  h.any (fun kv => HEADERS_TO_REMOVE.any (fun n => n == jsToLowerCase kv.1))

/-- part_000 originRequest lines 211-218: sanitize the inbound headers,
then set the subworker bypass header and the detection header (string
"true" when a match identifier is present and truthy, "false"
otherwise). -/
def originRequestHeaders (reqHeaders : Headers) (id : Option String) : Headers :=
  jsSetHeader
    (jsSetHeader (removeUnsafeHeaders reqHeaders) "ew-bypass" [jsStringOfBool true])
    NO_MORE_LEAKS_HEADER [jsStringOfBool (jsTruthyOptStr id)]

/- ===== keyExists (part_000 lines 148-201) ===== -/

/-- The outcome of the httpRequest sub-call that keyExists makes to the
lookup service: either the transport throws, or a response arrives with its
ok flag, raw body text and the outcome of result.json() (which throws on a
malformed body). -/
inductive LookupTransport where
  | netError (msg : String) : LookupTransport
  | response (ok : Bool) (bodyText : String) (jsonOutcome : Except String JSValue) : LookupTransport

/-- The try block of keyExists (part_000 lines 168-197): await the lookup
call; on an ok response parse the JSON and test
response.hasOwnProperty("id") && response["id"] !== null &&
response["id"].length === 36.  When the test passes, the diagnostic log
line evaluates response["id"].substring(0, 5) before the return, which is a
thrown TypeError unless the id value is a string.  A non-ok response only
logs and falls through to the final return null. -/
def keyExistsTry (t : LookupTransport) : Except String (Option String) :=
  match t with
  | .netError msg => .error msg
  | .response ok _ jsonOutcome =>
    if ok then
      match jsonOutcome with
      | .error e => .error e
      | .ok response =>
        match jsHasOwnE response "id" with
        | .error e => .error e
        | .ok hasId =>
          if hasId && !jsStrictEqNull (jsGetProp response "id")
               && jsStrictEqNum (jsGetProp (jsGetProp response "id") "length") 36 then
            match jsGetProp response "id" with
            | .str s => .ok (some s)
            | _ => .error "TypeError"
          else .ok none
    else .ok none

/-- part_000 keyExists: the digest and auth credential travel in request
headers consumed by the transport oracle; the surrounding try/catch maps
every thrown error to the final return null. -/
def keyExists (key : String) (auth : Option String) (t : LookupTransport) : Option String :=
  match keyExistsTry t with
  | .ok v => v
  | .error _ => none

/-- The failure cases of the lookup call named by the fail-open contract:
the transport threw, the service answered non-success, or the response body
was malformed JSON. -/
def lookupFailed : LookupTransport → Prop
  | .netError _ => True
  | .response ok _ jsonOutcome => ok = false ∨ ∃ e, jsonOutcome = Except.error e

/- ===== body parsing and the origin request (part_000 responseProvider) ===== -/

/-- The two body variables of responseProvider after the content-type
dispatch: the parsed body object (initialized to null) and the raw
form-encoded text (initialized to null). -/
structure ParsedBody where
  body : JSValue
  formBody : Option String
deriving Repr

/-- An inbound request as responseProvider reads it.  jsonOutcome and
textOutcome are the outcomes of request.json() and request.text() when
invoked; formParams is the view URLSearchParams (an external library) takes
of the form body; authVar is the PMUSER_AUTH_HEADER delivery variable. -/
structure EWRequest where
  contentTypeHeader : Option String
  jsonOutcome : Except String JSValue
  textOutcome : Except String String
  formParams : List (String × String)
  authVar : Option String
  headers : Headers
  method : String
  host : String

/-- part_000 lines 47-69: dispatch on the lowercased content type.  JSON
bodies come from request.json(), form bodies are read as text and mapped
through mapCredentials; a parse failure is caught and leaves the body
null.  Any other or missing content type parses nothing. -/
def parseBody (contentType : Option String) (jsonOutcome : Except String JSValue)
    (textOutcome : Except String String) (formParams : List (String × String)) : ParsedBody :=
  match contentType with
  | none => { body := .null, formBody := none }
  | some c =>
    if strStartsWith c "application/json" then
      match jsonOutcome with
      | .ok v => { body := v, formBody := none }
      | .error _ => { body := .null, formBody := none }
    else if strStartsWith c "application/x-www-form-urlencoded" then
      match textOutcome with
      | .ok t =>
          { body := .obj ((mapCredentials formParams).map (fun kv => (kv.1, JSValue.str kv.2))),
            formBody := some t }
      | .error _ => { body := .null, formBody := none }
    else { body := .null, formBody := none }

/-- part_000 line 116: const reqBody = formBody || JSON.stringify(body)
(an empty form body is falsy and falls back to the serialized body). -/
def reqBodyOf (st : ParsedBody) : String :=
  match st.formBody with
  | some t => if t == "" then jsonStringifyTop st.body else t
  | none => jsonStringifyTop st.body

/-- The request body responseProvider forwards, as a function of the raw
inbound data: lowercase the content type, parse, then apply the
formBody || JSON.stringify(body) selection. -/
def computeReqBody (contentTypeHeader : Option String) (jsonOutcome : Except String JSValue)
    (textOutcome : Except String String) (formParams : List (String × String)) : String :=
  reqBodyOf (parseBody (contentTypeHeader.map jsToLowerCase) jsonOutcome textOutcome formParams)

/-- The origin response as the httpRequest oracle delivers it. -/
structure OriginResponse where
  status : Nat
  ok : Bool
  headers : Headers
  body : String
deriving Repr, DecidableEq

/-- The outbound sub-request originRequest fires at the origin. -/
structure OutboundRequest where
  method : String
  headers : Headers
  body : String
deriving Repr, DecidableEq

/-- part_000 originRequest: sanitize and decorate the inbound headers, then
fire the sub-request with the inbound method and the reconstructed body.  A
transport throw propagates to the caller (the call is not wrapped). -/
def originRequest (req : EWRequest) (body : String) (id : Option String)
    (transport : Except String OriginResponse) : Except String (OutboundRequest × OriginResponse) :=
  let requestHeaders := originRequestHeaders req.headers id
  match transport with
  | .error e => .error e
  | .ok r => .ok ({ method := req.method, headers := requestHeaders, body := body }, r)

/-- The response handed back to the client (create-response). -/
structure ClientResponse where
  status : Nat
  headers : Headers
  body : String
deriving Repr, DecidableEq

/-- The external collaborators of one pipeline run: the WebCrypto digest of
the normalized credential string, the lookup transport, and the origin
transport. -/
structure World where
  digest : String → Except String String
  lookup : LookupTransport
  origin : Except String OriginResponse

/-- The observable outcome of one responseProvider run. -/
structure PipelineResult where
  key : Option String
  id : Option String
  lookupCalled : Bool
  reportCalled : Bool
  reportBody : Option (String × String)
  originSent : OutboundRequest
  response : ClientResponse
deriving Repr, DecidableEq

/-- part_000 responseProvider lines 32-145: lowercase the content type and
parse the body; normalize the auth variable with || null; guard the
fingerprint stage behind body && isValidBody(body) (a throw from
isValidBody is not caught and rejects the whole run); inside the caught
try, a fingerprint only arises when both resolved fields are strings (the
toLowerCase/normalize calls throw on anything else) and the digest
succeeds; the lookup runs only when key and authHeader are both truthy; the
origin call is not wrapped, so its throw rejects the run; the match report
fires exactly when id && originResponse.ok; the client receives the origin
status and body with the response headers stripped.  The else branch
returning a rejected promise at lines 139-144 is dead code (an obtained
response object is always truthy) and its condition therefore collapses. -/
def responseProvider (req : EWRequest) (w : World) : Except String PipelineResult :=
  let contentType := req.contentTypeHeader.map jsToLowerCase
  let st := parseBody contentType req.jsonOutcome req.textOutcome req.formParams
  let authHeader : Option String :=
    match req.authVar with
    | some s => if s == "" then none else some s
    | none => none
  match (if jsTruthy st.body then isValidBody st.body else Except.ok false) with
  | .error e => .error e
  | .ok valid =>
    let key : Option String :=
      if valid then
        match getNestedValue st.body UNAME, getNestedValue st.body PASSWD with
        | .str u, .str p =>
          match w.digest (normalizedUnamePasswd u p) with
          | .ok d => some d
          | .error _ => none
        | _, _ => none
      else none
    let doLookup := jsTruthyOptStr key && jsTruthyOptStr authHeader
    let id := if doLookup then keyExists (key.getD "") authHeader w.lookup else none
    let reqBody := reqBodyOf st
    match w.origin with
    | .error e => .error e
    | .ok originResponse =>
      let fire := jsTruthyOptStr id && originResponse.ok
      .ok { key := key
            id := id
            lookupCalled := doLookup
            reportCalled := fire
            reportBody := if fire then some (id.getD "", req.host) else none
            originSent := { method := req.method
                            headers := originRequestHeaders req.headers id
                            body := reqBody }
            response := { status := originResponse.status
                          headers := removeUnsafeHeaders originResponse.headers
                          body := originResponse.body } }

/- ===== concrete fixtures used by the closed instantiations below ===== -/

/-- A JSON login request carrying a known-compromised credential pair. -/
def c3Req : EWRequest :=
  { contentTypeHeader := some "application/json"
    jsonOutcome := Except.ok (.obj [("username", .str "user"), ("password", .str "pass")])
    textOutcome := Except.error "unread"
    formParams := []
    authVar := some "Basic dXNlcg=="
    headers := [("accept", ["*/*"])]
    method := "POST"
    host := "login.example.com" }

/-- A world in which the digest succeeds, the lookup service reports a
36-character match identifier, and the origin answers 200. -/
def c3World : World :=
  { digest := fun _ => Except.ok "0f7cd21b6f2b9b2fc021bcbc0d2830b0f6d2a5e8f1d2c3b4a5968778695a4b3c"
    lookup := .response true "" (Except.ok (.obj [("id", .str "2415aa96-ef6d-4ee6-bf1f-d69072d52b02")]))
    origin := Except.ok { status := 200, ok := true, headers := [("server", ["origin"])], body := "welcome" } }


/-- The outcome of running the pipeline on c3Req in c3World: the lookup is
consulted, the match identifier comes back, the report fires with the
identifier and the requesting host, the outbound request carries the
detection header "true", and the origin response is relayed stripped. -/
def c3Result : PipelineResult :=
  { key := some "0f7cd21b6f2b9b2fc021bcbc0d2830b0f6d2a5e8f1d2c3b4a5968778695a4b3c"
    id := some "2415aa96-ef6d-4ee6-bf1f-d69072d52b02"
    lookupCalled := true
    reportCalled := true
    reportBody := some ("2415aa96-ef6d-4ee6-bf1f-d69072d52b02", "login.example.com")
    originSent := { method := "POST"
                    headers := [("accept", ["*/*"]), ("ew-bypass", ["true"]),
                                ("x-nomoreleaks", ["true"])]
                    body := "\x7b\"username\":\"user\",\"password\":\"pass\"\x7d" }
    response := { status := 200, headers := [("server", ["origin"])], body := "welcome" } }

/-- A form-encoded inbound request used to instantiate the origin-request
frame theorem. -/
def c8Req : EWRequest :=
  { contentTypeHeader := some "application/x-www-form-urlencoded"
    jsonOutcome := Except.error "unread"
    textOutcome := Except.ok "username=a&password=bbb"
    formParams := [("username", "a"), ("password", "bbb")]
    authVar := none
    headers := []
    method := "POST"
    host := "login.example.com" }

/-- A successful origin answer used to instantiate the origin-request frame
theorem. -/
def c8Origin : OriginResponse :=
  { status := 200, ok := true, headers := [], body := "" }

/-- A list of n JSON nulls. -/
def mkNullList : Nat → List JSValue
  | 0 => []
  | n + 1 => JSValue.null :: mkNullList n

/-- A JSON array of 36 nulls: a non-string value whose length property is
exactly 36. -/
def arr36 : JSValue := JSValue.arr (mkNullList 36)

/- ===== helper lemmas ===== -/

/-- The reduce step of hasNestedProperty agrees with the reduce step of
getNestedValue on every accumulator: when the key test fails inside a
truthy object or array, the property read produces undefined anyway. -/
theorem hasStep_eq_getStep (acc : JSValue) (key : String) : hasStep acc key = getStep acc key := by
  cases acc with
  | undefined => rfl
  | null => rfl
  | bool b => cases b <;> rfl
  | num n => simp [hasStep, getStep, jsTruthy, jsTypeofIsObject, jsIsArray]
  | str s => simp [hasStep, getStep, jsTruthy, jsTypeofIsObject, jsIsArray]
  | obj fields =>
      simp only [hasStep, getStep, jsTruthy, jsTypeofIsObject, jsIsArray, jsHasKey,
        Bool.true_and, Bool.true_or, Bool.or_false, if_true]
      cases h : fields.find? (fun kv => kv.1 == key) with
      | none => simp [jsGetProp, h]
      | some kv => simp [jsGetProp, h]
  | arr elems =>
      simp only [hasStep, getStep, jsTruthy, jsTypeofIsObject, jsIsArray, jsHasKey,
        Bool.true_and, Bool.true_or, Bool.or_true, if_true]
      cases hl : (key == "length") with
      | true => simp [jsGetProp, hl]
      | false =>
        simp only [Bool.false_or]
        cases hn : jsIndexOf? key with
        | none => simp [jsGetProp, hl, hn]
        | some i =>
          cases hm : (decide (i < elems.length)) with
          | true => simp [jsGetProp, hl, hn, hm, of_decide_eq_true hm]
          | false => simp [jsGetProp, hl, hn, hm, of_decide_eq_false hm]

/-- The two path walks coincide on every key list. -/
theorem foldl_hasStep_eq_foldl_getStep (keys : List String) (acc : JSValue) :
    keys.foldl hasStep acc = keys.foldl getStep acc := by
  induction keys generalizing acc with
  | nil => rfl
  | cons k ks ih => simpa [List.foldl, hasStep_eq_getStep] using ih (getStep acc k)

/-- The expression x || "" coincides with Option.getD "". -/
theorem jsOrEmpty_eq_getD (o : Option String) : jsOrEmpty o = o.getD "" := by
  cases o with
  | none => rfl
  | some s =>
      by_cases h : s = ""
      · simp [jsOrEmpty, h]
      · simp [jsOrEmpty, h]

/-- Every name on the block list is already lowercase. -/
theorem headersToRemove_lower : ∀ n ∈ HEADERS_TO_REMOVE, jsToLowerCase n = n := by decide

/-- Membership after the delete fold: a surviving entry was already present
and its key differs from every lowercased blocked name. -/
theorem mem_foldl_jsDeleteKey (names : List String) (h : Headers) (kv : String × List String)
    (hmem : kv ∈ names.foldl (fun acc name => jsDeleteKey acc (jsToLowerCase name)) h) :
    kv ∈ h ∧ ∀ n ∈ names, kv.1 ≠ jsToLowerCase n := by
  induction names generalizing h with
  | nil => exact ⟨hmem, by simp⟩
  | cons n ns ih =>
      obtain ⟨hmem1, hrest⟩ := ih (jsDeleteKey h (jsToLowerCase n)) hmem
      rw [jsDeleteKey, List.mem_filter] at hmem1
      refine ⟨hmem1.1, ?_⟩
      intro m hm
      rcases List.mem_cons.mp hm with hmn | hmns
      · subst hmn
        have := hmem1.2
        simpa [bne_iff_ne] using this
      · exact hrest m hmns

/-- Membership after a header assignment: an entry either carries the
assigned key or was already present. -/
theorem mem_jsSetHeader (h : Headers) (k : String) (v : List String) (kv : String × List String)
    (hmem : kv ∈ jsSetHeader h k v) : kv.1 = k ∨ kv ∈ h := by
  unfold jsSetHeader at hmem
  by_cases hex : h.any (fun kv => kv.1 == k)
  · rw [if_pos hex, List.mem_map] at hmem
    obtain ⟨kv0, hkv0, heq⟩ := hmem
    by_cases hk : kv0.1 == k
    · rw [if_pos hk] at heq
      left
      rw [← heq]
    · rw [if_neg hk] at heq
      right
      rw [← heq]
      exact hkv0
  · rw [if_neg hex, List.mem_append] at hmem
    rcases hmem with hmem | hmem
    · right; exact hmem
    · left
      simp only [List.mem_singleton] at hmem
      rw [hmem]

/-- After removeUnsafeHeaders, the key of a surviving entry of a
lowercase-keyed header set matches no blocked name case-insensitively. -/
theorem key_not_unsafe_of_mem_removeUnsafeHeaders (h : Headers)
    (hh : ∀ kv ∈ h, jsToLowerCase kv.1 = kv.1) (kv : String × List String)
    (hmem : kv ∈ removeUnsafeHeaders h) :
    HEADERS_TO_REMOVE.any (fun n => n == jsToLowerCase kv.1) = false := by
  obtain ⟨hin, hne⟩ := mem_foldl_jsDeleteKey HEADERS_TO_REMOVE h kv hmem
  rw [List.any_eq_false]
  intro n hn
  have hlow : jsToLowerCase kv.1 = kv.1 := hh kv hin
  have hnn : jsToLowerCase n = n := headersToRemove_lower n hn
  have hneq : kv.1 ≠ n := by
    have h1 := hne n hn
    rw [hnn] at h1
    exact h1
  rw [hlow]
  intro hcontra
  exact hneq (eq_of_beq hcontra).symm

/-- Sanitizing a lowercase-keyed header set leaves no key that matches a
blocked name case-insensitively. -/
theorem containsUnsafeCI_removeUnsafeHeaders (h : Headers)
    (hh : ∀ kv ∈ h, jsToLowerCase kv.1 = kv.1) :
    containsUnsafeCI (removeUnsafeHeaders h) = false := by
  rw [containsUnsafeCI, List.any_eq_false]
  intro kv hkv
  rw [key_not_unsafe_of_mem_removeUnsafeHeaders h hh kv hkv]
  simp

/-- What keyExists yields on a successful, well-formed-JSON lookup answer:
the id field must be present and hold a string of UTF-16 length exactly 36.
A present non-null, non-string id whose length property is 36 passes the
guard but then throws a TypeError in the diagnostic substring call, which
the catch turns into null as well. -/
theorem keyExists_ok_characterization (key : String) (auth : Option String) (b : String)
    (resp : JSValue) :
    keyExists key auth (LookupTransport.response true b (Except.ok resp)) =
      (match resp with
       | .obj fields =>
         (match fields.find? (fun kv => kv.1 == "id") with
          | some kv =>
            (match kv.2 with
             | .str s => if utf16Length s = 36 then some s else none
             | _ => none)
          | none => none)
       | _ => none) := by
  cases resp with
  | undefined => rfl
  | null => rfl
  | bool v => rfl
  | num n => rfl
  | str s => rfl
  | arr elems => rfl
  | obj fields =>
    cases hf : fields.find? (fun kv => kv.1 == "id") with
    | none => simp [keyExists, keyExistsTry, jsHasOwnE, jsGetProp, hf]
    | some kv =>
      obtain ⟨k0, v0⟩ := kv
      cases v0 with
      | undefined => simp [keyExists, keyExistsTry, jsHasOwnE, jsGetProp, jsStrictEqNull,
          jsStrictEqNum, hf]
      | null => simp [keyExists, keyExistsTry, jsHasOwnE, jsGetProp, jsStrictEqNull,
          jsStrictEqNum, hf]
      | bool v => simp [keyExists, keyExistsTry, jsHasOwnE, jsGetProp, jsStrictEqNull,
          jsStrictEqNum, hf]
      | num n => simp [keyExists, keyExistsTry, jsHasOwnE, jsGetProp, jsStrictEqNull,
          jsStrictEqNum, hf]
      | str s =>
        by_cases h36 : utf16Length s = 36
        · simp [keyExists, keyExistsTry, jsHasOwnE, jsGetProp, jsStrictEqNull,
            jsStrictEqNum, hf, h36]
        · simp [keyExists, keyExistsTry, jsHasOwnE, jsGetProp, jsStrictEqNull,
            jsStrictEqNum, hf, h36]
          rw [if_neg (by exact_mod_cast h36)]
      | arr es =>
        by_cases h36 : es.length = 36
        · simp [keyExists, keyExistsTry, jsHasOwnE, jsGetProp, jsStrictEqNull,
            jsStrictEqNum, hf, h36]
        · simp [keyExists, keyExistsTry, jsHasOwnE, jsGetProp, jsStrictEqNull,
            jsStrictEqNum, hf]
          rw [if_neg (by exact_mod_cast h36)]
      | obj fs =>
        cases hlen : fs.find? (fun kv => kv.1 == "length") with
        | none => simp [keyExists, keyExistsTry, jsHasOwnE, jsGetProp, jsStrictEqNull,
            jsStrictEqNum, hf, hlen]
        | some kvl =>
          obtain ⟨kl, vl⟩ := kvl
          cases vl with
          | undefined => simp [keyExists, keyExistsTry, jsHasOwnE, jsGetProp, jsStrictEqNull,
              jsStrictEqNum, hf, hlen]
          | null => simp [keyExists, keyExistsTry, jsHasOwnE, jsGetProp, jsStrictEqNull,
              jsStrictEqNum, hf, hlen]
          | bool v => simp [keyExists, keyExistsTry, jsHasOwnE, jsGetProp, jsStrictEqNull,
              jsStrictEqNum, hf, hlen]
          | str s2 => simp [keyExists, keyExistsTry, jsHasOwnE, jsGetProp, jsStrictEqNull,
              jsStrictEqNum, hf, hlen]
          | arr es2 => simp [keyExists, keyExistsTry, jsHasOwnE, jsGetProp, jsStrictEqNull,
              jsStrictEqNum, hf, hlen]
          | obj fs2 => simp [keyExists, keyExistsTry, jsHasOwnE, jsGetProp, jsStrictEqNull,
              jsStrictEqNum, hf, hlen]
          | num n =>
            by_cases hn36 : n = 36
            · simp [keyExists, keyExistsTry, jsHasOwnE, jsGetProp, jsStrictEqNull,
                jsStrictEqNum, hf, hlen, hn36]
            · simp [keyExists, keyExistsTry, jsHasOwnE, jsGetProp, jsStrictEqNull,
                jsStrictEqNum, hf, hlen, hn36]

/- ===== claim theorems ===== -/

/-- Claim C9: for every body and every field path, hasNestedProperty is
true exactly when getNestedValue resolves to a value different from
undefined. -/
theorem hasNestedProperty_iff_getNestedValue_defined (obj : JSValue) (path : String) :
    hasNestedProperty obj path = !jsIsUndefined (getNestedValue obj path) := by
  unfold hasNestedProperty getNestedValue
  rw [foldl_hasStep_eq_foldl_getStep]

/-- Claim C10: for every parsed form-encoded parameter set, mapCredentials
yields exactly the two configured keys, each bound to the first matching
parameter value when one is present and to the empty string otherwise. -/
theorem mapCredentials_two_fields (params : List (String × String)) :
    (mapCredentials params).map Prod.fst = [UNAME, PASSWD] ∧
    paramsGet (mapCredentials params) UNAME = some ((paramsGet params UNAME).getD "") ∧
    paramsGet (mapCredentials params) PASSWD = some ((paramsGet params PASSWD).getD "") := by
  refine ⟨rfl, ?_, ?_⟩
  · have h : paramsGet (mapCredentials params) UNAME
        = some (jsOrEmpty (paramsGet params UNAME)) := rfl
    rw [h, jsOrEmpty_eq_getD]
  · have h : paramsGet (mapCredentials params) PASSWD
        = some (jsOrEmpty (paramsGet params PASSWD)) := rfl
    rw [h, jsOrEmpty_eq_getD]

/-- Claim C4 (failing input): on the body with username null and password
"abcd", isValidBody does not return false; it evaluates null.length and
throws a TypeError, which no caller catches. -/
theorem isValidBody_throws_on_null_field :
    isValidBody (JSValue.obj [("username", JSValue.null), ("password", JSValue.str "abcd")])
      = Except.error "TypeError" := by
  rfl

/-- Claim C2 (counterexample): the valid pair ("aaa", "aaaa") — and its
swap, also valid — produce the same fingerprint input, because the two
fields are concatenated with no separator. -/
theorem normalizedUnamePasswd_swap_collision :
    isValidBody (JSValue.obj [("username", JSValue.str "aaa"), ("password", JSValue.str "aaaa")])
      = Except.ok true ∧
    isValidBody (JSValue.obj [("username", JSValue.str "aaaa"), ("password", JSValue.str "aaa")])
      = Except.ok true ∧
    normalizedUnamePasswd "aaa" "aaaa" = normalizedUnamePasswd "aaaa" "aaa" := by
  exact ⟨rfl, rfl, rfl⟩

/-- Claim C2 (amended): swapping the two fields changes the fingerprint
input for valid pairs whose two concatenations differ as strings — for
example ("abc", "defg") — but not universally, since the separator-free
concatenation can coincide. -/
theorem normalizedUnamePasswd_order_sensitive :
    isValidBody (JSValue.obj [("username", JSValue.str "abc"), ("password", JSValue.str "defg")])
      = Except.ok true ∧
    isValidBody (JSValue.obj [("username", JSValue.str "defg"), ("password", JSValue.str "abc")])
      = Except.ok true ∧
    normalizedUnamePasswd "abc" "defg" ≠ normalizedUnamePasswd "defg" "abc" := by
  refine ⟨rfl, rfl, ?_⟩
  decide

/-- Claim C6: keyExists never lets an exception reach its caller — the
final catch maps every thrown error to null — and on every failed lookup
(network error, non-success status, malformed JSON body) it yields null,
the "no match" value. -/
theorem keyExists_never_throws_fail_open (key : String) (auth : Option String)
    (t : LookupTransport) :
    (∀ e, keyExistsTry t = Except.error e → keyExists key auth t = none) ∧
    (lookupFailed t → keyExists key auth t = none) := by
  constructor
  · intro e he
    unfold keyExists
    rw [he]
  · intro hf
    cases t with
    | netError m => rfl
    | response ok b j =>
      cases hf with
      | inl h => subst h; rfl
      | inr h =>
        obtain ⟨e, he⟩ := h
        subst he
        cases ok <;> rfl

/-- Claim C6 (witness): a network error on the lookup call yields the
"no match" value for a concrete digest and credential. -/
theorem keyExists_never_throws_fail_open_witness :
    keyExists "2e7d2c03a9507ae265ecf5b5356885a53393a2029d241394997265a1a25aefc6"
      (some "Basic bm1s") (LookupTransport.netError "ECONNRESET") = none :=
  (keyExists_never_throws_fail_open
    "2e7d2c03a9507ae265ecf5b5356885a53393a2029d241394997265a1a25aefc6"
    (some "Basic bm1s") (LookupTransport.netError "ECONNRESET")).2 trivial

/-- Claim C1 (amended): only the direct response shape is supported — an id
field holding a 36-character string yields that identifier, while a
response nesting the identifier one level under an id object yields null
for every nested payload. -/
theorem keyExists_shape_support (s key : String) (auth : Option String) (b : String)
    (inner : List (String × JSValue)) :
    (utf16Length s = 36 →
      keyExists key auth (LookupTransport.response true b
        (Except.ok (JSValue.obj [("id", JSValue.str s)]))) = some s) ∧
    keyExists key auth (LookupTransport.response true b
      (Except.ok (JSValue.obj [("id", JSValue.obj inner)]))) = none := by
  constructor
  · intro h36
    rw [keyExists_ok_characterization]
    simp [List.find?, h36]
  · rw [keyExists_ok_characterization]
    simp [List.find?]

/-- Claim C1 (witness): the direct shape with a concrete 36-character
identifier is accepted. -/
theorem keyExists_shape_support_witness :
    keyExists "k" (some "Basic bm1s") (LookupTransport.response true ""
      (Except.ok (JSValue.obj [("id", JSValue.str "2415aa96-ef6d-4ee6-bf1f-d69072d52b02")])))
      = some "2415aa96-ef6d-4ee6-bf1f-d69072d52b02" :=
  (keyExists_shape_support "2415aa96-ef6d-4ee6-bf1f-d69072d52b02" "k" (some "Basic bm1s") "" []).1
    (by decide)

/-- Claim C1 (counterexample): in the nested deployment variant the
36-character identifier is not returned — keyExists yields null on the
nested shape. -/
theorem keyExists_nested_shape_rejected :
    keyExists "k" (some "Basic bm1s") (LookupTransport.response true ""
      (Except.ok (JSValue.obj [("id",
        JSValue.obj [("id", JSValue.str "2415aa96-ef6d-4ee6-bf1f-d69072d52b02")])])))
      = none := by
  rfl

/-- Claim C5 (amended): on every successful well-formed lookup answer,
keyExists returns the id exactly when the field is present and holds a
string of length exactly 36; every other shape — including a present,
non-null, non-string id whose length property is 36, which throws inside
the diagnostic log call and is caught — yields null. -/
theorem keyExists_returns_only_string36 (key : String) (auth : Option String) (b : String)
    (resp : JSValue) :
    keyExists key auth (LookupTransport.response true b (Except.ok resp)) =
      (match resp with
       | .obj fields =>
         (match fields.find? (fun kv => kv.1 == "id") with
          | some kv =>
            (match kv.2 with
             | .str s => if utf16Length s = 36 then some s else none
             | _ => none)
          | none => none)
       | _ => none) :=
  keyExists_ok_characterization key auth b resp

/-- Claim C5 (counterexample): a response whose id field is present,
non-null and of length exactly 36 — an array of 36 elements — satisfies the
acceptance test of the claim, yet keyExists returns null rather than the
field value. -/
theorem keyExists_len36_nonstring_rejected :
    jsHasOwnE (JSValue.obj [("id", arr36)]) "id" = Except.ok true ∧
    jsStrictEqNull (jsGetProp (JSValue.obj [("id", arr36)]) "id") = false ∧
    jsStrictEqNum (jsGetProp (jsGetProp (JSValue.obj [("id", arr36)]) "id") "length") 36 = true ∧
    keyExists "k" (some "Basic bm1s")
      (LookupTransport.response true "" (Except.ok (JSValue.obj [("id", arr36)]))) = none := by
  exact ⟨rfl, rfl, rfl, rfl⟩

/-- Claim C7 (amended): when the original header keys are lowercase — the
form the EdgeWorkers runtime delivers — no blocked name survives, compared
case-insensitively, either in the decorated outbound request header set or
in the relayed response header set; the deletion itself only ever removes
the exact lowercase key, so a key in another casing would survive. -/
theorem strippedHeaders_invariant (reqHeaders respHeaders : Headers) (id : Option String)
    (hreq : ∀ kv ∈ reqHeaders, jsToLowerCase kv.1 = kv.1)
    (hresp : ∀ kv ∈ respHeaders, jsToLowerCase kv.1 = kv.1) :
    containsUnsafeCI (originRequestHeaders reqHeaders id) = false ∧
    containsUnsafeCI (removeUnsafeHeaders respHeaders) = false := by
  constructor
  · rw [containsUnsafeCI, List.any_eq_false]
    intro kv hkv
    unfold originRequestHeaders at hkv
    rcases mem_jsSetHeader _ _ _ kv hkv with hk | hkv1
    · rw [hk]
      decide
    · rcases mem_jsSetHeader _ _ _ kv hkv1 with hk | hkv2
      · rw [hk]
        decide
      · rw [key_not_unsafe_of_mem_removeUnsafeHeaders reqHeaders hreq kv hkv2]
        simp
  · exact containsUnsafeCI_removeUnsafeHeaders respHeaders hresp

/-- Claim C7 (witness): concrete lowercase-keyed request and response
header sets, each containing blocked names, come out clean. -/
theorem strippedHeaders_invariant_witness :
    containsUnsafeCI (originRequestHeaders
      [("host", ["login.example.com"]), ("accept", ["*/*"]), ("content-length", ["42"])]
      (some "2415aa96-ef6d-4ee6-bf1f-d69072d52b02")) = false ∧
    containsUnsafeCI (removeUnsafeHeaders
      [("vary", ["accept-encoding"]), ("server", ["origin"])]) = false :=
  strippedHeaders_invariant
    [("host", ["login.example.com"]), ("accept", ["*/*"]), ("content-length", ["42"])]
    [("vary", ["accept-encoding"]), ("server", ["origin"])]
    (some "2415aa96-ef6d-4ee6-bf1f-d69072d52b02")
    (by decide) (by decide)

/-- Claim C7 (counterexample): a header key carrying a blocked name in
non-lowercase casing survives removeUnsafeHeaders, so the final set does
contain a blocked name under case-insensitive comparison. -/
theorem strippedHeaders_mixed_case_survives :
    containsUnsafeCI (removeUnsafeHeaders [("Host", ["login.example.com"])]) = true := by
  decide

/-- Claim C8 (amended): the outbound origin request always reuses the
inbound method and carries exactly the reconstructed body; that body equals
the inbound text only for non-empty form-encoded reads, is the
re-serialization of the parsed JSON for JSON requests, and is the
four-character string "null" when the content type is missing or
unsupported or when the JSON parse or form text read throws (in all those
cases the body variable is never assigned and null is serialized). -/
theorem originRequest_frame (req : EWRequest) (b : String) (id : Option String)
    (r : OriginResponse) (out : OutboundRequest) (resp : OriginResponse)
    (hsend : originRequest req b id (Except.ok r) = Except.ok (out, resp))
    (ct : Option String) (j : Except String JSValue) (t : Except String String)
    (ps : List (String × String)) :
    (out.method = req.method ∧ out.body = b) ∧
    (∀ c ft, ct = some c →
      strStartsWith (jsToLowerCase c) "application/json" = false →
      strStartsWith (jsToLowerCase c) "application/x-www-form-urlencoded" = true →
      t = Except.ok ft → ft ≠ "" → computeReqBody ct j t ps = ft) ∧
    (∀ c v, ct = some c →
      strStartsWith (jsToLowerCase c) "application/json" = true →
      j = Except.ok v → computeReqBody ct j t ps = jsonStringifyTop v) ∧
    ((ct = none ∨ ∃ c, ct = some c ∧
        strStartsWith (jsToLowerCase c) "application/json" = false ∧
        strStartsWith (jsToLowerCase c) "application/x-www-form-urlencoded" = false) →
      computeReqBody ct j t ps = "null") ∧
    (∀ c e, ct = some c →
      strStartsWith (jsToLowerCase c) "application/json" = true →
      j = Except.error e → computeReqBody ct j t ps = "null") ∧
    (∀ c e, ct = some c →
      strStartsWith (jsToLowerCase c) "application/json" = false →
      strStartsWith (jsToLowerCase c) "application/x-www-form-urlencoded" = true →
      t = Except.error e → computeReqBody ct j t ps = "null") := by
  refine ⟨?_, ?_, ?_, ?_, ?_, ?_⟩
  · simp only [originRequest, Except.ok.injEq, Prod.mk.injEq] at hsend
    obtain ⟨hout, hr⟩ := hsend
    subst hout
    exact ⟨rfl, rfl⟩
  · intro c ft hct hjson hform ht hft
    subst hct
    subst ht
    have hne : (ft == "") = false := by
      rw [beq_eq_false_iff_ne]
      exact hft
    simp [computeReqBody, parseBody, reqBodyOf, hjson, hform, hne]
  · intro c v hct hjson hj
    subst hct
    subst hj
    simp [computeReqBody, parseBody, reqBodyOf, hjson]
  · intro hcase
    rcases hcase with hnone | ⟨c, hct, hjson, hform⟩
    · subst hnone
      rfl
    · subst hct
      simp [computeReqBody, parseBody, reqBodyOf, hjson, hform, jsonStringifyTop, stringifyV]
  · intro c e hct hjson hj
    subst hct
    subst hj
    simp [computeReqBody, parseBody, reqBodyOf, hjson, jsonStringifyTop, stringifyV]
  · intro c e hct hjson hform ht
    subst hct
    subst ht
    simp [computeReqBody, parseBody, reqBodyOf, hjson, hform, jsonStringifyTop, stringifyV]

/-- Claim C8 (witness): a non-empty form-encoded body is forwarded
verbatim, through an origin call that reuses the inbound method and that
body. -/
theorem originRequest_frame_witness :
    computeReqBody (some "application/x-www-form-urlencoded") (Except.error "unread")
      (Except.ok "username=a&password=bbb") [("username", "a"), ("password", "bbb")]
      = "username=a&password=bbb" :=
  ((originRequest_frame c8Req "username=a&password=bbb" none c8Origin
      { method := "POST"
        headers := [("ew-bypass", ["true"]), ("x-nomoreleaks", ["false"])]
        body := "username=a&password=bbb" } c8Origin rfl
      (some "application/x-www-form-urlencoded") (Except.error "unread")
      (Except.ok "username=a&password=bbb") [("username", "a"), ("password", "bbb")]).2.1
    "application/x-www-form-urlencoded" "username=a&password=bbb" rfl (by decide) (by decide)
    rfl (by decide))

/-- Claim C8 (counterexample): with an unsupported content type the origin
receives the string "null", not the inbound body text "hello". -/
theorem originRequest_body_not_preserved :
    computeReqBody (some "text/plain") (Except.error "never parsed") (Except.ok "hello") []
      = "null" ∧ ("null" : String) ≠ "hello" := by
  exact ⟨rfl, by decide⟩

/-- Claim C3: whenever a pipeline run completes and the match report fired,
the run had a truthy match identifier and the origin transport had
delivered a response whose ok flag was set; a missing identifier or a
non-success origin response means no report call. -/
theorem report_only_on_match_and_origin_ok (req : EWRequest) (w : World) (res : PipelineResult)
    (hrun : responseProvider req w = Except.ok res) (hrep : res.reportCalled = true) :
    (∃ s, res.id = some s ∧ s ≠ "") ∧ ∃ r, w.origin = Except.ok r ∧ r.ok = true := by
  simp only [responseProvider] at hrun
  split at hrun
  · exact absurd hrun (by simp)
  · split at hrun
    · exact absurd hrun (by simp)
    · rename_i valid hv r ho
      rw [Except.ok.injEq] at hrun
      have hfields : res.reportCalled = (jsTruthyOptStr res.id && r.ok) := by
        rw [← hrun]
      rw [hfields, Bool.and_eq_true] at hrep
      obtain ⟨hid, hok⟩ := hrep
      cases hid2 : res.id with
      | none =>
        rw [hid2] at hid
        simp [jsTruthyOptStr] at hid
      | some s =>
        rw [hid2] at hid
        refine ⟨⟨s, rfl, ?_⟩, r, ho, hok⟩
        simpa [jsTruthyOptStr] using hid

/-- Claim C3 (witness): a concrete run in which the report fires — JSON
body with valid credentials, digest and lookup succeeding with a
36-character identifier, origin answering 200 — indeed has a truthy
identifier and a successful origin response. -/
theorem report_only_on_match_and_origin_ok_witness :
    (∃ s, c3Result.id = some s ∧ s ≠ "") ∧
    ∃ r, c3World.origin = Except.ok r ∧ r.ok = true :=
  report_only_on_match_and_origin_ok c3Req c3World c3Result rfl rfl
